import Mathlib

/-!
Verification of the backend proxy in `backend/main.py`.

The three HTTP handlers (`health`, `generate`, `colab_status`) are embedded as
pure Lean functions.  The behaviour of the network environment (the upstream
model server and the transport) is an explicit oracle argument: for `generate`
an `Outcome` (an httpx exception, or a response with a status code and a body
whose JSON parse either succeeds or fails), for `colab_status` a
`StatusOutcome`.  Each handler additionally returns the list of outbound
requests it issued, so that "makes no network attempt" is a statement about
the trace component.
-/

namespace MultimodalAgent

/-- A JSON value, as produced by `response.json()` and consumed by
`httpx` request bodies (`json=...`). -/
inductive JsonVal where
  | null : JsonVal
  | bool : Bool → JsonVal
  | num : Int → JsonVal
  | str : String → JsonVal
  | arr : List JsonVal → JsonVal
  | obj : List (String × JsonVal) → JsonVal

/-- The httpx transport-level exceptions that `client.post`/`client.get` can
raise, per the httpx exception hierarchy: `ConnectError`, `ReadError`,
`WriteError`, `CloseError` are subclasses of `NetworkError`;
`ConnectTimeout`, `ReadTimeout`, `WriteTimeout`, `PoolTimeout` are
subclasses of `TimeoutException`. -/
inductive HttpxError where
  | connectError | readError | writeError | closeError
  | connectTimeout | readTimeout | writeTimeout | poolTimeout
deriving DecidableEq, Repr

/-- Whether the exception is caught by `except httpx.ConnectError`:
only `ConnectError` itself (no other class in the model is its subclass). -/
def HttpxError.isConnectError : HttpxError → Bool
  | .connectError => true
  | _ => false

/-- Whether the exception is caught by `except httpx.TimeoutException`:
the four timeout subclasses.  In particular `ConnectTimeout` is a
`TimeoutException`, not a `ConnectError`. -/
def HttpxError.isTimeoutException : HttpxError → Bool
  | .connectTimeout | .readTimeout | .writeTimeout | .poolTimeout => true
  | _ => false

/-- What the environment does to the single `client.post` call made by
`generate`: either an httpx transport exception is raised, or a response
arrives with a status code and a body; `jsonBody = none` means the body is
not valid JSON, so `response.json()` raises a `JSONDecodeError`. -/
inductive Outcome where
  | exn (e : HttpxError)
  | resp (status : Nat) (jsonBody : Option JsonVal)

/-- One outbound POST issued by the handler: URL and JSON payload. -/
structure OutboundPost where
  url : String
  payload : JsonVal

/-- What the `/api/generate` handler does: return a JSON body (FastAPI
status 200), raise an `HTTPException` with a status code and a detail
string, or let an exception escape unhandled (`unhandledExn` for a
transport error matched by no `except` clause, `unhandledDecode` for the
`JSONDecodeError` out of `response.json()`). -/
inductive GenResult where
  | success (body : JsonVal)
  | httpError (status : Nat) (detail : String)
  | unhandledExn (e : HttpxError)
  | unhandledDecode

/-- Detail string of the 503 raised when `COLAB_API_URL` is empty. -/
def notConfiguredDetail : String :=
  "COLAB_API_URL not set. Please add it to your .env file."

/-- Detail string of the 503 raised on `httpx.ConnectError`. -/
def connectErrorDetail : String :=
  "Cannot connect to Colab model server. Make sure the Colab notebook is running."

/-- Detail string of the 504 raised on `httpx.TimeoutException`. -/
def timeoutDetail : String :=
  "Model server timed out. Generation can take 1-3 minutes, please try again."

/-- `response.is_success` in httpx: status in [200, 300).
`response.raise_for_status()` raises `HTTPStatusError` exactly when this
is false. -/
def is_success (status : Nat) : Bool :=
  decide (200 ≤ status) && decide (status < 300)

/-- `str(e)` for the `httpx.HTTPStatusError` raised by
`raise_for_status()`.  The httpx library renders a message determined by
the response; only the status code matters to the repository's API
contract, so the rendered text is modelled as a function of the status. -/
def httpStatusErrorStr (status : Nat) : String :=
  "HTTP status error: " ++ toString status

/-- The `try` block of `generate` given the environment's outcome:
`response.raise_for_status()` raises `HTTPStatusError` on non-2xx, handled
as a pass-through `HTTPException`; `ConnectError` maps to 503,
`TimeoutException` to 504 (`except` clauses in source order); any other
transport error, and a JSON decode failure on a 2xx body, escape
unhandled. -/
def generateResult (outcome : Outcome) : GenResult :=
  match outcome with
  | .exn e =>
    if e.isConnectError then .httpError 503 connectErrorDetail
    else if e.isTimeoutException then .httpError 504 timeoutDetail
    else .unhandledExn e
  | .resp status jsonBody =>
    if is_success status then
      match jsonBody with
      | some body => .success body
      | none => .unhandledDecode
    else .httpError status (httpStatusErrorStr status)

/-- The `POST /api/generate` handler.  If `COLAB_API_URL` is empty it
raises 503 before any client is created (empty trace); otherwise it posts
`{"prompt": prompt}` to `COLAB_API_URL ++ "/generate"` exactly once and
handles the outcome per `generateResult`. -/
def generate (colabApiUrl prompt : String) (outcome : Outcome) :
    GenResult × List OutboundPost :=
  if colabApiUrl = "" then
    (.httpError 503 notConfiguredDetail, [])
  else
    (generateResult outcome,
     [⟨colabApiUrl ++ "/generate", .obj [("prompt", .str prompt)]⟩])

/-- What the environment does to the single `client.get` call made by
`colab_status`: either an exception is raised (with `str(e) = msg`), or a
response arrives; when its body is not valid JSON (`jsonBody = none`),
`response.json()` raises a `JSONDecodeError` whose `str` is `decodeMsg`. -/
inductive StatusOutcome where
  | exn (msg : String)
  | resp (status : Nat) (jsonBody : Option JsonVal) (decodeMsg : String)

/-- The body returned by `/api/colab-status`: `{"online": true, "detail":
d}` or `{"online": false, "reason": r}`. -/
inductive StatusResult where
  | online (detail : JsonVal)
  | offline (reason : String)

/-- The `GET /api/colab-status` handler.  If `COLAB_API_URL` is empty it
returns offline without a network attempt; otherwise it GETs
`COLAB_API_URL ++ "/health"` once; `except Exception` catches every
failure (including the `JSONDecodeError` from `response.json()`, which is
evaluated inside the `try`), folding it into `{"online": false, "reason":
str(e)}`.  No `raise_for_status` is called, so any response with a valid
JSON body yields online. -/
def colab_status (colabApiUrl : String) (o : StatusOutcome) :
    StatusResult × List String :=
  if colabApiUrl = "" then
    (.offline "COLAB_API_URL not configured", [])
  else
    match o with
    | .exn msg => (.offline msg, [colabApiUrl ++ "/health"])
    | .resp _ jsonBody decodeMsg =>
      match jsonBody with
      | some body => (.online body, [colabApiUrl ++ "/health"])
      | none => (.offline decodeMsg, [colabApiUrl ++ "/health"])

/-- The body returned by `GET /health`. -/
structure HealthResult where
  status : String
  colab_url_configured : Bool
deriving DecidableEq, Repr

/-- The `GET /health` handler: `{"status": "ok", "colab_url_configured":
bool(COLAB_API_URL)}`; Python `bool` on a string is emptiness. -/
def health (colabApiUrl : String) : HealthResult :=
  { status := "ok", colab_url_configured := colabApiUrl != "" }

/-- C1: for every configured upstream base address, if the upstream's
generation endpoint responds 200 with payload `P`, `generate` returns
exactly `P` unmodified as the result body. -/
theorem generate_success_passthrough (colabApiUrl prompt : String) (P : JsonVal)
    (h : colabApiUrl ≠ "") :
    (generate colabApiUrl prompt (Outcome.resp 200 (some P))).1
      = GenResult.success P := by
  simp [generate, h, generateResult, is_success]

/-- Witness for C1 at a concrete configured URL, prompt and payload. -/
theorem generate_success_passthrough_witness :
    (generate "http://u" "p" (Outcome.resp 200 (some (JsonVal.str "out")))).1
      = GenResult.success (JsonVal.str "out") :=
  generate_success_passthrough "http://u" "p" (JsonVal.str "out") (by decide)

/-- C2: for every prompt and every environment outcome, if the upstream
base address is empty, `generate` fails with HTTP 503 and the
not-configured detail, and issues no outbound call (empty trace). -/
theorem generate_not_configured (prompt : String) (o : Outcome) :
    generate "" prompt o = (GenResult.httpError 503 notConfiguredDetail, []) := by
  simp [generate]

/-- C3: for every configured upstream and every prompt, a
`ConnectError` yields HTTP 503 with the cannot-connect detail, and every
`TimeoutException` (any of its four subclasses) yields HTTP 504 with the
timed-out detail. -/
theorem generate_transport_errors (colabApiUrl prompt : String)
    (h : colabApiUrl ≠ "") :
    (generate colabApiUrl prompt (Outcome.exn HttpxError.connectError)).1
        = GenResult.httpError 503 connectErrorDetail
    ∧ ∀ e : HttpxError, e.isTimeoutException = true →
        (generate colabApiUrl prompt (Outcome.exn e)).1
          = GenResult.httpError 504 timeoutDetail := by
  constructor
  · simp [generate, h, generateResult, HttpxError.isConnectError]
  · intro e he
    cases e <;> simp_all [generate, h, generateResult,
      HttpxError.isConnectError, HttpxError.isTimeoutException]

/-- Witness for C3: at a concrete URL, the connect-error and the
read-timeout outcomes map to 503 and 504 respectively. -/
theorem generate_transport_errors_witness :
    (generate "http://u" "p" (Outcome.exn HttpxError.connectError)).1
        = GenResult.httpError 503 connectErrorDetail
    ∧ (generate "http://u" "p" (Outcome.exn HttpxError.readTimeout)).1
        = GenResult.httpError 504 timeoutDetail :=
  ⟨(generate_transport_errors "http://u" "p" (by decide)).1,
   (generate_transport_errors "http://u" "p" (by decide)).2
     HttpxError.readTimeout rfl⟩

/-- C4: for every configured upstream, prompt and body, a response with a
non-2xx status `S` makes `generate` fail with an `HTTPException` whose
status code is exactly `S`, passed through unchanged. -/
theorem generate_upstream_error (colabApiUrl prompt : String) (S : Nat)
    (jb : Option JsonVal) (h : colabApiUrl ≠ "")
    (hS : ¬ (200 ≤ S ∧ S < 300)) :
    (generate colabApiUrl prompt (Outcome.resp S jb)).1
      = GenResult.httpError S (httpStatusErrorStr S) := by
  have hs : is_success S = false := by
    simp [is_success]
    omega
  simp [generate, h, generateResult, hs]

/-- Witness for C4: upstream status 500 is passed through as a 500. -/
theorem generate_upstream_error_witness :
    (generate "http://u" "p" (Outcome.resp 500 none)).1
      = GenResult.httpError 500 (httpStatusErrorStr 500) :=
  generate_upstream_error "http://u" "p" 500 none (by decide) (by omega)

/-- C7: a connect timeout is a `TimeoutException` and not a
`ConnectError`, so for a configured upstream `generate` reports it as the
504 timeout error, not as the 503 unreachable error. -/
theorem generate_connect_timeout_is_timeout (colabApiUrl prompt : String)
    (h : colabApiUrl ≠ "") :
    HttpxError.connectTimeout.isConnectError = false
    ∧ HttpxError.connectTimeout.isTimeoutException = true
    ∧ (generate colabApiUrl prompt (Outcome.exn HttpxError.connectTimeout)).1
        = GenResult.httpError 504 timeoutDetail
    ∧ (generate colabApiUrl prompt (Outcome.exn HttpxError.connectTimeout)).1
        ≠ GenResult.httpError 503 connectErrorDetail := by
  refine ⟨rfl, rfl, ?_, ?_⟩
  · simp [generate, h, generateResult,
      HttpxError.isConnectError, HttpxError.isTimeoutException]
  · simp [generate, h, generateResult,
      HttpxError.isConnectError, HttpxError.isTimeoutException]

/-- Witness for C7 at a concrete configured URL. -/
theorem generate_connect_timeout_is_timeout_witness :
    (generate "http://u" "p" (Outcome.exn HttpxError.connectTimeout)).1
      = GenResult.httpError 504 timeoutDetail :=
  (generate_connect_timeout_is_timeout "http://u" "p" (by decide)).2.2.1

/-- C8: for a configured upstream, a 2xx response whose body is not valid
JSON makes the `JSONDecodeError` from `response.json()` escape unhandled:
the result is neither a success body nor an `HTTPException` of the
documented taxonomy. -/
theorem generate_invalid_json_unhandled (colabApiUrl prompt : String) (S : Nat)
    (h : colabApiUrl ≠ "") (hS : 200 ≤ S ∧ S < 300) :
    (generate colabApiUrl prompt (Outcome.resp S none)).1
        = GenResult.unhandledDecode
    ∧ (∀ b, (generate colabApiUrl prompt (Outcome.resp S none)).1
        ≠ GenResult.success b)
    ∧ (∀ c d, (generate colabApiUrl prompt (Outcome.resp S none)).1
        ≠ GenResult.httpError c d) := by
  have hs : is_success S = true := by
    simp [is_success]
    omega
  refine ⟨?_, ?_, ?_⟩ <;> simp [generate, h, generateResult, hs]

/-- Witness for C8: a 200 response with an invalid-JSON body. -/
theorem generate_invalid_json_unhandled_witness :
    (generate "http://u" "p" (Outcome.resp 200 none)).1
      = GenResult.unhandledDecode :=
  (generate_invalid_json_unhandled "http://u" "p" 200 (by decide) (by omega)).1

/-- C5 counterexample: at a configured URL and an exception whose `str` is
empty (e.g. an `httpx.ConnectTimeout` stringifies to the empty string),
`colab_status` returns `{"online": false, "reason": ""}`, so the result is
neither online-with-detail nor offline-with-a-NON-EMPTY-reason, refuting
the claim as stated. -/
theorem colab_status_nonempty_reason_cex :
    ¬ ((∃ d, (colab_status "http://u" (StatusOutcome.exn "")).1
          = StatusResult.online d)
       ∨ (∃ r, (colab_status "http://u" (StatusOutcome.exn "")).1
            = StatusResult.offline r ∧ r ≠ "")) := by
  have hres : (colab_status "http://u" (StatusOutcome.exn "")).1
      = StatusResult.offline "" := by
    simp [colab_status]
  rintro (⟨d, hd⟩ | ⟨r, hr, hne⟩)
  · rw [hres] at hd
    exact StatusResult.noConfusion hd
  · rw [hres] at hr
    injection hr with h2
    exact hne h2.symm

/-- C5 amended: `colab_status` never lets a fault escape: for every
upstream base address and every environment outcome its result is either
online with the upstream detail payload or offline with a reason string
(the failure's rendering, which may be empty); in particular, when
configured, every exception and every JSON-decode failure is folded into
an offline result. -/
theorem colab_status_never_faults (colabApiUrl : String) (o : StatusOutcome) :
    ((∃ d, (colab_status colabApiUrl o).1 = StatusResult.online d)
      ∨ (∃ r, (colab_status colabApiUrl o).1 = StatusResult.offline r))
    ∧ (∀ msg, colabApiUrl ≠ "" →
        (colab_status colabApiUrl (StatusOutcome.exn msg)).1
          = StatusResult.offline msg)
    ∧ (∀ st dm, colabApiUrl ≠ "" →
        (colab_status colabApiUrl (StatusOutcome.resp st none dm)).1
          = StatusResult.offline dm) := by
  refine ⟨?_, ?_, ?_⟩
  · by_cases h : colabApiUrl = ""
    · subst h
      right
      exact ⟨"COLAB_API_URL not configured", rfl⟩
    · cases o with
      | exn msg =>
        right
        exact ⟨msg, by simp [colab_status, h]⟩
      | resp st jb dm =>
        cases jb with
        | some body =>
          left
          exact ⟨body, by simp [colab_status, h]⟩
        | none =>
          right
          exact ⟨dm, by simp [colab_status, h]⟩
  · intro msg h
    simp [colab_status, h]
  · intro st dm h
    simp [colab_status, h]

/-- Witness for C5 amended: a concrete exception is folded into offline
with its message. -/
theorem colab_status_never_faults_witness :
    (colab_status "http://u" (StatusOutcome.exn "boom")).1
      = StatusResult.offline "boom" :=
  (colab_status_never_faults "http://u" (StatusOutcome.exn "boom")).2.1
    "boom" (by decide)

/-- C6 counterexample: with the upstream unconfigured, the reason string
the handler returns is "COLAB_API_URL not configured", not the claimed
exact value "not configured". -/
theorem colab_status_not_configured_cex :
    (colab_status "" (StatusOutcome.exn "x")).1
      ≠ StatusResult.offline "not configured" := by
  intro h
  have hres : (colab_status "" (StatusOutcome.exn "x")).1
      = StatusResult.offline "COLAB_API_URL not configured" := rfl
  rw [hres] at h
  injection h with h2
  exact absurd h2 (by decide)

/-- C6 amended: if the upstream base address is unconfigured,
`colab_status` returns exactly `{"online": false, "reason":
"COLAB_API_URL not configured"}` and issues no outbound call. -/
theorem colab_status_not_configured (o : StatusOutcome) :
    colab_status "" o
      = (StatusResult.offline "COLAB_API_URL not configured", []) := by
  cases o <;> rfl

/-- C9: `health` always returns `{"status": "ok", "colab_url_configured":
b}` with `b` true exactly when the upstream base address is non-empty. -/
theorem health_ok (colabApiUrl : String) :
    (health colabApiUrl).status = "ok"
    ∧ ((health colabApiUrl).colab_url_configured = true ↔ colabApiUrl ≠ "") := by
  refine ⟨rfl, ?_⟩
  simp [health]

/-- C10: for every configured upstream, every prompt and every environment
outcome, `generate` issues exactly one outbound call, to the upstream's
`/generate` endpoint, whose payload is an object with the prompt as its
sole field. -/
theorem generate_single_request (colabApiUrl prompt : String) (o : Outcome)
    (h : colabApiUrl ≠ "") :
    (generate colabApiUrl prompt o).2
      = [⟨colabApiUrl ++ "/generate",
          JsonVal.obj [("prompt", JsonVal.str prompt)]⟩] := by
  simp [generate, h]

/-- Witness for C10 at a concrete URL, prompt and outcome. -/
theorem generate_single_request_witness :
    (generate "http://u" "p" (Outcome.exn HttpxError.connectError)).2
      = [⟨"http://u" ++ "/generate",
          JsonVal.obj [("prompt", JsonVal.str "p")]⟩] :=
  generate_single_request "http://u" "p" (Outcome.exn HttpxError.connectError)
    (by decide)

end MultimodalAgent
